import Mathlib

/-!
Verification of the report engine in `src/queries/mongo_queries.py`.

The module is a library of MongoDB aggregation queries over a collection of
film documents.  Each query function is embedded shallowly: a collection is a
`List Film`, aggregation stages become list operations, and the server-side
behaviours the code relies on (`$split`, `$unwind`, `$group`, `$convert`,
`$avg`, sort order of BSON values, type-bracketed comparisons) are modelled
explicitly.  Where the server leaves an order unspecified (the output order
of `$group`), the embedding fixes a canonical order via `List.dedup`; no
theorem below depends on that choice in a way the server would not also
satisfy after the pipelines' explicit `$sort` stages.
-/

namespace MongoFilms

/-- A BSON scalar for fields that may hold either a number or free text
(`Revenue (Millions)` and `Metascore` in the data model).  Exact rationals
stand in for BSON doubles.  Null and missing are both modelled as
`Option.none` at the field level, because every operation in the source
treats them alike (`$convert` has the same `onNull` fallback for both,
`$avg` skips both, comparison queries match neither). -/
inductive BVal where
  | num (q : ℚ)
  | str (s : String)
deriving DecidableEq

/-- One film document, restricted to the fields the queries under analysis
read, typed per the collection's data model: `title` a string, `year` an
integer (possibly absent), `genre` a comma-separated string (possibly
absent), `Votes` and `Runtime (Minutes)` numeric (possibly absent),
`Revenue (Millions)` and `Metascore` numeric or textual (possibly
absent). -/
structure Film where
  title : String
  year : Option ℤ
  genre : Option String
  votes : Option ℚ
  revenue : Option BVal
  metascore : Option BVal
  runtime : Option ℚ
deriving DecidableEq

/-! ### Numeric coercion: `$convert {to: "double", onError: null, onNull: null}` -/

/-- Value of a nonempty list of decimal digit characters; `none` if the list
is empty or contains a non-digit. -/
def digitsVal (s : List Char) : Option ℕ :=
  if s.isEmpty then none
  else
    s.foldl
      (fun acc c =>
        acc.bind (fun n => if c.isDigit then some (10 * n + (c.toNat - '0'.toNat)) else none))
      (some 0)

/-- Split a character list on a separator character, mirroring MongoDB's
`$split` on a one-character delimiter (`n` separators give `n + 1`
fields, possibly empty). -/
def splitOnSep (sep : Char) : List Char → List (List Char)
  | [] => [[]]
  | c :: rest =>
    if c = sep then [] :: splitOnSep sep rest
    else
      match splitOnSep sep rest with
      | [] => [[c]]
      | t :: ts => (c :: t) :: ts

/-- Parse an unsigned decimal string: digits with an optional fractional
part.  Used to model the server's string-to-double conversion. -/
def parseUnsigned (s : List Char) : Option ℚ :=
  match splitOnSep '.' s with
  | [w] => (digitsVal w).map (fun n => (n : ℚ))
  | [w, fr] =>
    match digitsVal w, digitsVal fr with
    | some n, some m => some ((n : ℚ) + (m : ℚ) / (10 : ℚ) ^ fr.length)
    | _, _ => none
  | _ => none

/-- Model of the server's string-to-double conversion for plain decimal
strings: optional leading minus sign, then an unsigned decimal.  In the
collection's data model textual values of the numeric-or-textual fields are
unparseable anyway, so no claim depends on the exact accepted language. -/
def parseNum (s : List Char) : Option ℚ :=
  match s with
  | '-' :: rest => (parseUnsigned rest).map (fun q => -q)
  | _ => parseUnsigned s

/-- `$convert {input: v, to: "double", onError: null, onNull: null}`:
numbers pass through, strings are parsed (unparseable ones give null),
null or missing gives null. -/
def toNum : Option BVal → Option ℚ
  | none => none
  | some (BVal.num q) => some q
  | some (BVal.str s) => parseNum s.data

/-- Strip leading and trailing whitespace; model of both MongoDB `$trim`
(with the default whitespace character set) and Python's `str.strip()`. -/
def trimChars (s : List Char) : List Char :=
  ((s.dropWhile Char.isWhitespace).reverse.dropWhile Char.isWhitespace).reverse

/-! ### Genre tokenisation: `$addFields {genreArray: {$split: ["$genre", ","]}}`
followed by `$unwind "$genreArray"` -/

/-- The comma-split genre tokens of a film.  A missing (or null) `genre`
makes `$split` return null, and `$unwind` of a null field emits no
documents, so such a film contributes no tokens. -/
def genreTokens (f : Film) : List (List Char) :=
  match f.genre with
  | none => []
  | some g => splitOnSep ',' g.data

/-- The trimmed genre tokens of a film. -/
def trimmedTokens (f : Film) : List (List Char) :=
  (genreTokens f).map trimChars

/-! ### Report 5: `distinct_genres` -/

/-- Report 5 `distinct_genres`: split `genre` on commas, `$unwind`, `$group`
by the raw (untrimmed) token, then in Python keep the truthy keys and
`strip()` them.  The `$group` output order is unspecified server-side; the
embedding fixes it with `List.dedup` over the token stream, which keeps
exactly one occurrence of each distinct raw token, as `$group` does. -/
def distinct_genres (films : List Film) : List String :=
  let tokens := films.flatMap genreTokens
  ((tokens.dedup.filter (fun t => !t.isEmpty)).map (fun t => (trimChars t).asString))

/-! ### Report 4: `films_per_year`, and report 2: `count_films_after_1999` -/

/-- The `$group {_id: "$year"}` key of a film: a missing `year` gives the
BSON null key, which sorts below every number; modelled as `WithBot ℤ`
with `⊥` for null. -/
def yearKey (f : Film) : WithBot ℤ :=
  match f.year with
  | none => ⊥
  | some y => (y : WithBot ℤ)

/-- The unsorted year groups of report 4: one pair (year key, group size)
per distinct year key. -/
def yearGroups (films : List Film) : List (WithBot ℤ × ℕ) :=
  ((films.map yearKey).dedup).map
    (fun k => (k, (films.filter (fun f => yearKey f = k)).length))

/-- The `$sort {_id: 1}` order of report 4: ascending by group key. -/
def pairYearLe (a b : WithBot ℤ × ℕ) : Prop := a.1 ≤ b.1

instance : DecidableRel pairYearLe :=
  fun a b => inferInstanceAs (Decidable (a.1 ≤ b.1))

instance : IsTotal (WithBot ℤ × ℕ) pairYearLe := ⟨fun a b => le_total a.1 b.1⟩

instance : IsTrans (WithBot ℤ × ℕ) pairYearLe := ⟨fun _ _ _ h1 h2 => le_trans h1 h2⟩

/-- Report 4 `films_per_year`: `$group {_id: "$year", count: {$sum: 1}}`
then `$sort {_id: 1}`. -/
def films_per_year (films : List Film) : List (WithBot ℤ × ℕ) :=
  List.insertionSort pairYearLe (yearGroups films)

/-- Report 2 `count_films_after_1999`:
`count_documents({"year": {"$gt": 1999}})`.  The comparison is
type-bracketed: only numeric years compare greater than the number 1999;
null or missing years never match. -/
def count_films_after_1999 (films : List Film) : ℕ :=
  (films.filter (fun f =>
    match f.year with
    | some y => decide (1999 < y)
    | none => false)).length

/-! ### Report 3: `average_votes_for_2007` -/

/-- Report 3 `average_votes_for_2007`: `$match {year: 2007}` then
`$group {_id: null, avgVotes: {$avg: "$Votes"}}`.  With no matching
documents the aggregation returns no row and the Python falls back to
`None`; with matching documents but no numeric `Votes` value among them,
`$avg` returns null, which the Python hands back unchanged — both are
`none` here. -/
def average_votes_for_2007 (films : List Film) : Option ℚ :=
  let matched := films.filter (fun f => f.year = some 2007)
  if matched.isEmpty then none
  else
    let vs := matched.filterMap (fun f => f.votes)
    if vs.isEmpty then none
    else some (vs.sum / (vs.length : ℚ))

/-! ### Report 6: `top_revenue_film` -/

/-- The `$project` shape of report 6: `{_id: 0, title: 1,
originalRevenue: "$Revenue (Millions)", numericRevenue: "$parsedRevenue"}`. -/
structure RevenueResult where
  title : String
  originalRevenue : Option BVal
  numericRevenue : ℚ
deriving DecidableEq

/-- The rows surviving report 6's `$addFields` + `$match`: films paired
with their successfully converted revenue. -/
def revenueRows (films : List Film) : List (Film × ℚ) :=
  films.filterMap (fun f => (toNum f.revenue).map (fun q => (f, q)))

/-- The `$sort {parsedRevenue: -1}` order of report 6. -/
def revDesc (a b : Film × ℚ) : Prop := b.2 ≤ a.2

instance : DecidableRel revDesc :=
  fun a b => inferInstanceAs (Decidable (b.2 ≤ a.2))

instance : IsTotal (Film × ℚ) revDesc := ⟨fun a b => le_total b.2 a.2⟩

instance : IsTrans (Film × ℚ) revDesc := ⟨fun _ _ _ h1 h2 => le_trans h2 h1⟩

/-- Report 6 `top_revenue_film`: convert `Revenue (Millions)` to double,
drop failures, sort descending, `$limit 1`, project; `None` when nothing
survives. -/
def top_revenue_film (films : List Film) : Option RevenueResult :=
  ((List.insertionSort revDesc (revenueRows films)).head?).map
    (fun fq => ⟨fq.1.title, fq.1.revenue, fq.2⟩)

/-! ### Report 9: `top_3_movies_each_decade` -/

/-- An element pushed by report 9's `$group`:
`{title: "$title", metascore: "$numericMetascore", year: "$year"}`.
A missing `year` is simply omitted from the pushed document, hence the
optional field. -/
structure DecadeFilm where
  title : String
  metascore : ℚ
  year : Option ℤ
deriving DecidableEq

/-- One row of report 9's output:
`{decade: "$_id", top3Films: {$slice: ["$filmsByDecade", 3]}}`.  The
decade key is null (`⊥`) for documents without a numeric `year`, since
`$mod` and `$subtract` return null on a null or missing operand. -/
structure DecadeGroup where
  decade : WithBot ℤ
  top3Films : List DecadeFilm
deriving DecidableEq

/-- `decade = year - (year mod 10)` via `$subtract` and `$mod` on a numeric
year; MongoDB's `$mod` truncates toward zero like C, i.e. `Int.tmod`. -/
def decadeOf (y : ℤ) : ℤ := y - Int.tmod y 10

/-- The `$group {_id: "$decade"}` key of a surviving document: `$mod` and
`$subtract` return null when `year` is null or missing, so such documents
group under the BSON null key (`⊥`), which sorts below every number. -/
def decadeKey (y : Option ℤ) : WithBot ℤ :=
  match y with
  | none => ⊥
  | some z => (decadeOf z : WithBot ℤ)

/-- The `$sort {numericMetascore: -1}` order of report 9. -/
def msDesc (a b : DecadeFilm) : Prop := b.metascore ≤ a.metascore

instance : DecidableRel msDesc :=
  fun a b => inferInstanceAs (Decidable (b.metascore ≤ a.metascore))

instance : IsTotal DecadeFilm msDesc := ⟨fun a b => le_total b.metascore a.metascore⟩

instance : IsTrans DecadeFilm msDesc := ⟨fun _ _ _ h1 h2 => le_trans h2 h1⟩

/-- The final `$sort {decade: 1}` order of report 9. -/
def decGroupLe (a b : DecadeGroup) : Prop := a.decade ≤ b.decade

instance : DecidableRel decGroupLe :=
  fun a b => inferInstanceAs (Decidable (a.decade ≤ b.decade))

instance : IsTotal DecadeGroup decGroupLe := ⟨fun a b => le_total a.decade b.decade⟩

instance : IsTrans DecadeGroup decGroupLe := ⟨fun _ _ _ h1 h2 => le_trans h1 h2⟩

/-- The rows of report 9 after `$convert` on `Metascore` and the `$match`
dropping failed conversions, with the (possibly absent) year attached. -/
def decadeRows (films : List Film) : List DecadeFilm :=
  films.filterMap (fun f =>
    (toNum f.metascore).map (fun m => ⟨f.title, m, f.year⟩))

/-- Report 9 `top_3_movies_each_decade`: convert `Metascore`, drop
failures, compute the decade (null for documents without a numeric
`year`), sort by metascore descending, group by decade pushing in
arrival order, slice the first 3 per decade, sort decades ascending
(BSON null first).  As in report 4, `$group` output order is modelled
with `List.dedup` before the explicit final sort. -/
def top_3_movies_each_decade (films : List Film) : List DecadeGroup :=
  let sorted := List.insertionSort msDesc (decadeRows films)
  let decades := (sorted.map (fun r => decadeKey r.year)).dedup
  List.insertionSort decGroupLe (decades.map (fun d =>
    ⟨d, (sorted.filter (fun r => decadeKey r.year = d)).take 3⟩))

/-! ### Report 10: `longest_film_by_genre` -/

/-- One row of report 10's output: `{_id: genre, maxRuntime, longestFilm}`.
`longestFilm` is `$$ROOT`; the embedding keeps the underlying film (the
added `genreArray` field is recoverable as the group's `_id`). -/
structure GenreMax where
  genre : List Char
  maxRuntime : Option ℚ
  longestFilm : Film
deriving DecidableEq

/-- One row per (trimmed genre token, film): `$split`, `$unwind`, then
`$set {genreArray: {$trim: {input: "$genreArray"}}}`. -/
def genreRows (films : List Film) : List (List Char × Film) :=
  films.flatMap (fun f => (genreTokens f).map (fun t => (trimChars t, f)))

/-- BSON sort key of an optional numeric field: null (or missing) sorts
below every number; modelled as `WithBot ℚ` with `⊥` for null. -/
def rtKey (a : Option ℚ) : WithBot ℚ :=
  match a with
  | none => ⊥
  | some x => (x : WithBot ℚ)

/-- The `$sort {"Runtime (Minutes)": -1}` order of report 10 on the
unwound rows: descending BSON order, numbers from largest to smallest
first, null and missing last. -/
def runtimeDesc (a b : List Char × Film) : Prop :=
  rtKey b.2.runtime ≤ rtKey a.2.runtime

instance : DecidableRel runtimeDesc :=
  fun a b => inferInstanceAs (Decidable (rtKey b.2.runtime ≤ rtKey a.2.runtime))

instance : IsTotal (List Char × Film) runtimeDesc :=
  ⟨fun a b => le_total (rtKey b.2.runtime) (rtKey a.2.runtime)⟩

instance : IsTrans (List Char × Film) runtimeDesc :=
  ⟨fun _ _ _ h1 h2 => le_trans h2 h1⟩

/-- The final `$sort {maxRuntime: -1}` order of report 10. -/
def maxRtDesc (a b : GenreMax) : Prop :=
  rtKey b.maxRuntime ≤ rtKey a.maxRuntime

instance : DecidableRel maxRtDesc :=
  fun a b => inferInstanceAs (Decidable (rtKey b.maxRuntime ≤ rtKey a.maxRuntime))

instance : IsTotal GenreMax maxRtDesc :=
  ⟨fun a b => le_total (rtKey b.maxRuntime) (rtKey a.maxRuntime)⟩

instance : IsTrans GenreMax maxRtDesc :=
  ⟨fun _ _ _ h1 h2 => le_trans h2 h1⟩

/-- Report 10 `longest_film_by_genre`: split and trim genres, one row per
token, sort rows by `Runtime (Minutes)` descending, group by token taking
`$first` of the runtime and of `$$ROOT`, then sort groups by `maxRuntime`
descending.  As in report 4, `$group` output order is modelled with
`List.dedup` before the explicit final sort. -/
def longest_film_by_genre (films : List Film) : List GenreMax :=
  let sorted := List.insertionSort runtimeDesc (genreRows films)
  let keys := (sorted.map (fun r => r.1)).dedup
  List.insertionSort maxRtDesc (keys.filterMap (fun k =>
    ((sorted.filter (fun r => r.1 = k)).head?).map (fun r => ⟨k, r.2.runtime, r.2⟩)))

/-! ### Concrete collections used in witnesses and counterexamples -/

/-- A film with every optional field absent. -/
def blankFilm : Film :=
  ⟨"", none, none, none, none, none, none⟩

/-- Two films whose genre strings name the same genre with different
surrounding whitespace: `"Crime, Drama"` and `"Drama"`. -/
def exC1 : List Film :=
  [{ blankFilm with title := "g1", genre := some "Crime, Drama" },
   { blankFilm with title := "g2", genre := some "Drama" }]

/-- Two qualifying rows with a constant runtime column. -/
def exC3 : List Film :=
  [{ blankFilm with title := "r1", runtime := some 100, revenue := some (BVal.num 5) },
   { blankFilm with title := "r2", runtime := some 100, revenue := some (BVal.num 10) }]

/-- Two qualifying rows with both columns non-constant. -/
def exC3v : List Film :=
  [{ blankFilm with title := "s1", runtime := some 1, revenue := some (BVal.num 2) },
   { blankFilm with title := "s2", runtime := some 2, revenue := some (BVal.num 1) }]

/-- Years 2000, 2000, 1999 and one record with no year. -/
def exC4 : List Film :=
  [{ blankFilm with title := "a", year := some 2000 },
   { blankFilm with title := "b", year := some 2000 },
   { blankFilm with title := "c", year := some 1999 },
   { blankFilm with title := "d" }]

/-- Films across two decades, one with an unparseable `Metascore` and one
with a coercible `Metascore` but no `year` (null decade). -/
def exC6 : List Film :=
  [{ blankFilm with title := "mA", year := some 1994, metascore := some (BVal.num 80) },
   { blankFilm with title := "mB", year := some 1991, metascore := some (BVal.num 90) },
   { blankFilm with title := "mC", year := some 2003, metascore := some (BVal.num 70) },
   { blankFilm with title := "mD", year := some 1999, metascore := some (BVal.str "bad") },
   { blankFilm with title := "mE", metascore := some (BVal.num 60) }]

/-- The 120-minute film of `exC7`. -/
def exC7long : Film :=
  { blankFilm with title := "tLong", genre := some "Action, Drama", runtime := some 120 }

/-- Films sharing the genre `Action` with distinct runtimes, one of them
with no runtime at all. -/
def exC7 : List Film :=
  [exC7long,
   { blankFilm with title := "tShort", genre := some "Action", runtime := some 90 },
   { blankFilm with title := "tNoRt", genre := some "Action" }]

/-- One film with unparseable revenue text and one with numeric revenue. -/
def exC8 : List Film :=
  [{ blankFilm with title := "uA", revenue := some (BVal.str "n/a") },
   { blankFilm with title := "uB", revenue := some (BVal.num 55) }]

/-- A 2007 film with no `Votes` value next to a 2006 film with votes. -/
def exC10 : List Film :=
  [{ blankFilm with title := "vA", year := some 2007 },
   { blankFilm with title := "vB", year := some 2006, votes := some 10 }]

/-! ### Report 12: `runtime_revenue_correlation`

The source selects documents where both `Runtime (Minutes)` and
`Revenue (Millions)` exist with BSON numeric type, then computes the Pearson
correlation of the two columns with pandas.  The float computation is
idealised over exact rationals and the final quotient over the reals.
`pandas.Series.corr` returns the float `nan` when the denominator
`sqrt(Σ(x-x̄)² · Σ(y-ȳ)²)` is zero, i.e. when either column is constant
(in particular for a single row); that outcome is a distinct constructor
here, as is the Python `None` returned when no document qualifies. -/

/-- The qualifying rows of report 12: `Runtime (Minutes)` present and
numeric, `Revenue (Millions)` present and numeric. -/
def corrData (films : List Film) : List (ℚ × ℚ) :=
  films.filterMap (fun f =>
    match f.runtime, f.revenue with
    | some rt, some (BVal.num rv) => some (rt, rv)
    | _, _ => none)

/-- Σx over the qualifying rows. -/
def sumFst (l : List (ℚ × ℚ)) : ℚ := (l.map (fun p => p.1)).sum

/-- Σy over the qualifying rows. -/
def sumSnd (l : List (ℚ × ℚ)) : ℚ := (l.map (fun p => p.2)).sum

/-- Σx² over the qualifying rows. -/
def sumFstSq (l : List (ℚ × ℚ)) : ℚ := (l.map (fun p => p.1 * p.1)).sum

/-- Σy² over the qualifying rows. -/
def sumSndSq (l : List (ℚ × ℚ)) : ℚ := (l.map (fun p => p.2 * p.2)).sum

/-- Σxy over the qualifying rows. -/
def sumProd (l : List (ℚ × ℚ)) : ℚ := (l.map (fun p => p.1 * p.2)).sum

/-- `n·Σx² − (Σx)²`, which is `n²` times the variance of the first column. -/
def sxx (l : List (ℚ × ℚ)) : ℚ := l.length * sumFstSq l - sumFst l * sumFst l

/-- `n·Σy² − (Σy)²`, which is `n²` times the variance of the second column. -/
def syy (l : List (ℚ × ℚ)) : ℚ := l.length * sumSndSq l - sumSnd l * sumSnd l

/-- `n·Σxy − Σx·Σy`, which is `n²` times the covariance of the columns. -/
def sxy (l : List (ℚ × ℚ)) : ℚ := l.length * sumProd l - sumFst l * sumSnd l

/-- The observable outcome of report 12: the Python `None`, the float
`nan`, or a real value. -/
inductive CorrResult where
  | absent
  | nan
  | val (x : ℝ)

/-- Report 12 `runtime_revenue_correlation`: `None` when no document
qualifies, otherwise the pandas Pearson coefficient
`sxy / √(sxx·syy)`, which is `nan` exactly when a column is constant. -/
noncomputable def runtime_revenue_correlation (films : List Film) : CorrResult :=
  let l := corrData films
  if l.isEmpty then CorrResult.absent
  else if sxx l = 0 ∨ syy l = 0 then CorrResult.nan
  else CorrResult.val ((sxy l : ℝ) / (Real.sqrt (sxx l) * Real.sqrt (syy l)))

/-! ### Sum identities for the correlation bound -/

/-- A list sum of mapped values as a sum over positions. -/
theorem map_sum_eq_fin_sum {α : Type} (l : List α) (f : α → ℚ) :
    (l.map f).sum = ∑ i : Fin l.length, f (l.get i) := by
  induction l with
  | nil => simp
  | cons a t ih =>
    rw [List.map_cons, List.sum_cons, ih]
    simp only [List.length_cons]
    rw [Fin.sum_univ_succ (fun i => f ((a :: t).get i))]
    simp

/-- Expansion of a bilinear sum of shifted terms. -/
theorem fin_sum_expand (m : ℕ) : ∀ (F G : Fin m → ℚ) (a b c d : ℚ),
    (∑ i, (a * F i - c) * (b * G i - d))
      = a * b * (∑ i, F i * G i) - a * d * (∑ i, F i) - c * b * (∑ i, G i)
        + (m : ℚ) * (c * d) := by
  induction m with
  | zero => intro F G a b c d; simp
  | succ m ih =>
    intro F G a b c d
    have h := ih (fun i => F i.succ) (fun i => G i.succ) a b c d
    rw [Fin.sum_univ_succ (fun i => (a * F i - c) * (b * G i - d)),
      Fin.sum_univ_succ (fun i => F i * G i), Fin.sum_univ_succ F, Fin.sum_univ_succ G, h]
    push_cast
    ring

/-- Cauchy–Schwarz for the scaled-and-centred columns:
`sxy² ≤ sxx · syy`. -/
theorem sxy_sq_le_sxx_mul_syy (l : List (ℚ × ℚ)) : sxy l * sxy l ≤ sxx l * syy l := by
  rcases eq_or_ne l [] with rfl | hne
  · simp [sxy, sxx, syy, sumProd, sumFst, sumSnd, sumFstSq, sumSndSq]
  · have hlen : 0 < l.length := List.length_pos.mpr hne
    have hn : (0 : ℚ) < (l.length : ℚ) := by exact_mod_cast hlen
    have hSx := map_sum_eq_fin_sum l (fun p => p.1)
    have hSy := map_sum_eq_fin_sum l (fun p => p.2)
    have hSxy := map_sum_eq_fin_sum l (fun p => p.1 * p.2)
    have hSxx := map_sum_eq_fin_sum l (fun p => p.1 * p.1)
    have hSyy := map_sum_eq_fin_sum l (fun p => p.2 * p.2)
    have hA := fin_sum_expand l.length (fun i => (l.get i).1) (fun i => (l.get i).2)
      (l.length : ℚ) (l.length : ℚ) (sumFst l) (sumSnd l)
    have hB := fin_sum_expand l.length (fun i => (l.get i).1) (fun i => (l.get i).1)
      (l.length : ℚ) (l.length : ℚ) (sumFst l) (sumFst l)
    have hC := fin_sum_expand l.length (fun i => (l.get i).2) (fun i => (l.get i).2)
      (l.length : ℚ) (l.length : ℚ) (sumSnd l) (sumSnd l)
    rw [← hSxy, ← hSx, ← hSy] at hA
    rw [← hSxx, ← hSx] at hB
    rw [← hSyy, ← hSy] at hC
    have hA' : (∑ i : Fin l.length,
        ((l.length : ℚ) * (l.get i).1 - sumFst l) * ((l.length : ℚ) * (l.get i).2 - sumSnd l))
          = (l.length : ℚ) * sxy l := by
      rw [hA]; unfold sxy sumFst sumSnd sumProd; ring
    have hB' : (∑ i : Fin l.length,
        ((l.length : ℚ) * (l.get i).1 - sumFst l) * ((l.length : ℚ) * (l.get i).1 - sumFst l))
          = (l.length : ℚ) * sxx l := by
      rw [hB]; unfold sxx sumFst sumFstSq; ring
    have hC' : (∑ i : Fin l.length,
        ((l.length : ℚ) * (l.get i).2 - sumSnd l) * ((l.length : ℚ) * (l.get i).2 - sumSnd l))
          = (l.length : ℚ) * syy l := by
      rw [hC]; unfold syy sumSnd sumSndSq; ring
    have cs := Finset.sum_mul_sq_le_sq_mul_sq Finset.univ
      (fun i : Fin l.length => (l.length : ℚ) * (l.get i).1 - sumFst l)
      (fun i : Fin l.length => (l.length : ℚ) * (l.get i).2 - sumSnd l)
    simp only [pow_two] at cs
    rw [hA', hB', hC'] at cs
    nlinarith [cs, mul_pos hn hn]

/-- `sxx` is nonnegative (it is `n²` times a variance). -/
theorem sxx_nonneg (l : List (ℚ × ℚ)) : 0 ≤ sxx l := by
  have hSx := map_sum_eq_fin_sum l (fun p => p.1)
  have hSxx := map_sum_eq_fin_sum l (fun p => p.1 * p.1)
  have cs := Finset.sum_mul_sq_le_sq_mul_sq Finset.univ
    (fun i : Fin l.length => (l.get i).1) (fun _ : Fin l.length => (1 : ℚ))
  simp only [pow_two, mul_one, one_mul, Finset.sum_const, Finset.card_univ,
    Fintype.card_fin, nsmul_eq_mul] at cs
  rw [← hSx, ← hSxx] at cs
  unfold sxx sumFst sumFstSq
  nlinarith [cs]

/-- `syy` is nonnegative (it is `n²` times a variance). -/
theorem syy_nonneg (l : List (ℚ × ℚ)) : 0 ≤ syy l := by
  have hSy := map_sum_eq_fin_sum l (fun p => p.2)
  have hSyy := map_sum_eq_fin_sum l (fun p => p.2 * p.2)
  have cs := Finset.sum_mul_sq_le_sq_mul_sq Finset.univ
    (fun i : Fin l.length => (l.get i).2) (fun _ : Fin l.length => (1 : ℚ))
  simp only [pow_two, mul_one, one_mul, Finset.sum_const, Finset.card_univ,
    Fintype.card_fin, nsmul_eq_mul] at cs
  rw [← hSy, ← hSyy] at cs
  unfold syy sumSnd sumSndSq
  nlinarith [cs]

/-! ### Counting lemmas for the grouping reports -/

/-- `countP` of a pointwise disjunction of disjoint predicates adds up. -/
theorem countP_or_disjoint {α : Type} (l : List α) (p q : α → Bool)
    (h : ∀ a ∈ l, ¬(p a = true ∧ q a = true)) :
    l.countP (fun a => p a || q a) = l.countP p + l.countP q := by
  induction l with
  | nil => simp
  | cons x t ih =>
    have hx := h x (List.mem_cons_self x t)
    have ht : ∀ a ∈ t, ¬(p a = true ∧ q a = true) :=
      fun a ha => h a (List.mem_cons_of_mem x ha)
    by_cases hp : p x = true <;> by_cases hq : q x = true
    · exact absurd ⟨hp, hq⟩ hx
    all_goals simp [List.countP_cons, hp, hq, ih ht]
    all_goals omega

/-- Summing the group sizes over a duplicate-free list of keys counts the
elements whose key lies in the list. -/
theorem sum_group_sizes {α κ : Type} [DecidableEq κ] (f : α → κ) (l : List α) :
    ∀ K : List κ, K.Nodup →
      ((K.map (fun k => (l.filter (fun a => f a = k)).length)).sum)
        = (l.filter (fun a => decide (f a ∈ K))).length := by
  intro K
  induction K with
  | nil => simp
  | cons k K ih =>
    intro hnd
    rcases List.nodup_cons.mp hnd with ⟨hk, hnd'⟩
    rw [List.map_cons, List.sum_cons, ih hnd', ← List.countP_eq_length_filter,
      ← List.countP_eq_length_filter, ← List.countP_eq_length_filter]
    have hpt : ∀ a ∈ l, decide (f a ∈ k :: K) = true
        ↔ (decide (f a = k) || decide (f a ∈ K)) = true := by
      intro a _
      simp [List.mem_cons]
    rw [List.countP_congr hpt]
    rw [countP_or_disjoint]
    intro a _
    intro hand
    rcases hand with ⟨h1, h2⟩
    exact hk (by simpa [of_decide_eq_true h1] using of_decide_eq_true h2)

/-- The keys of `yearGroups` are exactly the distinct year keys. -/
theorem yearGroups_map_fst (films : List Film) :
    (yearGroups films).map Prod.fst = (films.map yearKey).dedup := by
  unfold yearGroups
  rw [List.map_map]
  exact List.map_id _

/-- The sizes of `yearGroups` are the group sizes of the distinct keys. -/
theorem yearGroups_map_snd (films : List Film) :
    (yearGroups films).map Prod.snd
      = ((films.map yearKey).dedup).map
          (fun k => (films.filter (fun f => yearKey f = k)).length) := by
  unfold yearGroups
  rw [List.map_map]
  rfl

/-! ### Claim C10 — report 3 on a year with no numeric votes -/

/-- Claim C10: if records with year 2007 exist but none of them carries a
numeric `Votes` value, report 3 (`average_votes_for_2007`) returns the
absent sentinel `None` — not 0 and not an error — because the `$avg`
accumulator over zero numeric values yields null. -/
theorem average_votes_2007_no_numeric_votes (films : List Film)
    (_h1 : ∃ f ∈ films, f.year = some 2007)
    (h2 : ∀ f ∈ films, f.year = some 2007 → f.votes = none) :
    average_votes_for_2007 films = none := by
  simp only [average_votes_for_2007]
  split_ifs with hm hv
  · rfl
  · rfl
  · exfalso
    apply hv
    simp only [List.isEmpty_iff]
    rw [List.filterMap_eq_nil_iff]
    intro f hf
    have hmem := List.mem_filter.mp hf
    exact h2 f hmem.1 (of_decide_eq_true hmem.2)

/-- Witness for C10 at a concrete collection. -/
theorem average_votes_2007_no_numeric_votes_witness :
    average_votes_for_2007 exC10 = none :=
  average_votes_2007_no_numeric_votes exC10
    ⟨{ blankFilm with title := "vA", year := some 2007 }, by decide, by decide⟩
    (by decide)

/-! ### Claim C8 — report 6 and failed revenue coercion -/

/-- Claim C8: report 6 (`top_revenue_film`) never returns a record whose
`Revenue (Millions)` failed numeric coercion — any returned row comes from
a film whose revenue converts, carrying the converted value — and when no
record's revenue coerces it returns `None` rather than raising. -/
theorem top_revenue_film_no_failed_coercion (films : List Film) :
    ((∀ f ∈ films, toNum f.revenue = none) → top_revenue_film films = none) ∧
    (∀ r, top_revenue_film films = some r →
      ∃ f ∈ films, f.title = r.title ∧ f.revenue = r.originalRevenue ∧
        toNum f.revenue = some r.numericRevenue) := by
  constructor
  · intro h
    have hrows : revenueRows films = [] := by
      rw [revenueRows, List.filterMap_eq_nil_iff]
      intro f hf
      rw [h f hf]
      rfl
    rw [top_revenue_film, hrows]
    rfl
  · intro r hr
    rw [top_revenue_film] at hr
    rcases Option.map_eq_some'.mp hr with ⟨fq, hhead, hproj⟩
    have hmem : fq ∈ List.insertionSort revDesc (revenueRows films) :=
      List.mem_of_mem_head? (by simp [hhead])
    have hmem2 : fq ∈ revenueRows films := (List.mem_insertionSort revDesc).mp hmem
    rcases List.mem_filterMap.mp hmem2 with ⟨f, hf, hconv⟩
    rcases Option.map_eq_some'.mp hconv with ⟨q, hq, hfq⟩
    refine ⟨f, hf, ?_, ?_, ?_⟩
    · rw [← hproj, ← hfq]
    · rw [← hproj, ← hfq]
    · rw [← hproj, ← hfq]
      exact hq

/-- Witness for C8 at a concrete collection: the film with unparseable
revenue text is never returned; the numeric one is. -/
theorem top_revenue_film_no_failed_coercion_witness :
    (top_revenue_film exC8
        = some ⟨"uB", some (BVal.num 55), 55⟩) ∧
    ∃ f ∈ exC8, f.title = "uB" ∧ f.revenue = some (BVal.num 55) ∧
      toNum f.revenue = some 55 := by
  have h := (top_revenue_film_no_failed_coercion exC8).2
    ⟨"uB", some (BVal.num 55), 55⟩ (by decide)
  exact ⟨by decide, h⟩

/-! ### Claim C4 — report 4 is sorted and counts the whole collection -/

/-- Claim C4: for every non-empty collection, report 4 (`films_per_year`)
returns a sequence sorted strictly ascending by year key (BSON null key
first) whose per-year counts sum to the number of records. -/
theorem films_per_year_sorted_and_total (films : List Film) (_hne : films ≠ []) :
    List.Pairwise (fun a b : WithBot ℤ × ℕ => a.1 < b.1) (films_per_year films) ∧
    ((films_per_year films).map Prod.snd).sum = films.length := by
  have hperm : List.Perm (films_per_year films) (yearGroups films) :=
    List.perm_insertionSort _ _
  constructor
  · have hs : List.Pairwise pairYearLe (films_per_year films) :=
      List.sorted_insertionSort pairYearLe (yearGroups films)
    have hndk : ((films_per_year films).map Prod.fst).Nodup := by
      have h1 : ((yearGroups films).map Prod.fst).Nodup := by
        rw [yearGroups_map_fst]
        exact List.nodup_dedup _
      exact ((hperm.map Prod.fst).nodup_iff).mpr h1
    have hdistinct : List.Pairwise (fun a b : WithBot ℤ × ℕ => a.1 ≠ b.1) (films_per_year films) :=
      List.pairwise_map.mp hndk
    exact (hs.and hdistinct).imp (fun h => lt_of_le_of_ne h.1 h.2)
  · rw [(hperm.map Prod.snd).sum_eq, yearGroups_map_snd,
      sum_group_sizes yearKey films _ (List.nodup_dedup _), ← List.countP_eq_length_filter]
    apply List.countP_eq_length.mpr
    intro f hf
    simp only [decide_eq_true_eq, List.mem_dedup]
    exact List.mem_map_of_mem yearKey hf

/-- Witness for C4 at a concrete collection. -/
theorem films_per_year_sorted_and_total_witness :
    exC4 ≠ [] ∧
    (List.Pairwise (fun a b : WithBot ℤ × ℕ => a.1 < b.1) (films_per_year exC4) ∧
      ((films_per_year exC4).map Prod.snd).sum = exC4.length) :=
  ⟨by decide, films_per_year_sorted_and_total exC4 (by decide)⟩

/-! ### Claim C5 — report 2 agrees with report 4 above 1999 -/

/-- Claim C5: report 2 (`count_films_after_1999`) equals the sum of the
counts in report 4 (`films_per_year`) restricted to entries whose year key
exceeds 1999. -/
theorem count_after_1999_matches_films_per_year (films : List Film) :
    count_films_after_1999 films
      = (((films_per_year films).filter
            (fun e => ((1999 : ℤ) : WithBot ℤ) < e.1)).map Prod.snd).sum := by
  have hperm : List.Perm (films_per_year films) (yearGroups films) :=
    List.perm_insertionSort _ _
  rw [(((hperm.filter _).map Prod.snd)).sum_eq]
  rw [yearGroups]
  rw [List.filter_map, List.map_map]
  have hK : ((films.map yearKey).dedup.filter
      (fun k => decide (((1999 : ℤ) : WithBot ℤ) < k))).Nodup :=
    (List.nodup_dedup _).filter _
  have := sum_group_sizes yearKey films
    ((films.map yearKey).dedup.filter (fun k => decide (((1999 : ℤ) : WithBot ℤ) < k))) hK
  rw [show (Prod.snd ∘ fun k => (k, (films.filter (fun f => yearKey f = k)).length))
      = (fun k => (films.filter (fun f => yearKey f = k)).length) from rfl]
  rw [show ((fun e : WithBot ℤ × ℕ => decide (((1999 : ℤ) : WithBot ℤ) < e.1)) ∘
      (fun k => (k, (films.filter (fun f => yearKey f = k)).length)))
      = (fun k : WithBot ℤ => decide (((1999 : ℤ) : WithBot ℤ) < k)) from rfl]
  rw [this, count_films_after_1999, ← List.countP_eq_length_filter,
    ← List.countP_eq_length_filter]
  apply List.countP_congr
  intro f hf
  have hmem : yearKey f ∈ (films.map yearKey).dedup :=
    List.mem_dedup.mpr (List.mem_map_of_mem yearKey hf)
  cases hy : f.year with
  | none =>
    constructor
    · intro h
      simp only [hy] at h
      exact absurd h Bool.false_ne_true
    · intro h
      exfalso
      have h2 := List.mem_filter.mp (of_decide_eq_true h)
      have h3 := of_decide_eq_true h2.2
      have hk : yearKey f = ⊥ := by simp [yearKey, hy]
      rw [hk] at h3
      exact absurd h3 (by simp)
  | some y =>
    have hk : yearKey f = (y : WithBot ℤ) := by simp [yearKey, hy]
    constructor
    · intro h
      simp only [hy] at h
      have hlt : (1999 : ℤ) < y := of_decide_eq_true h
      apply decide_eq_true
      exact List.mem_filter.mpr ⟨hmem, decide_eq_true (by rw [hk]; exact_mod_cast hlt)⟩
    · intro h
      have h2 := List.mem_filter.mp (of_decide_eq_true h)
      have h3 := of_decide_eq_true h2.2
      rw [hk] at h3
      have hlt : (1999 : ℤ) < y := by exact_mod_cast h3
      simp only [hy]
      exact decide_eq_true hlt

/-! ### Claim C1 — report 5 can return duplicates (dedup happens pre-trim) -/

/-- Claim C1 (refuted — code bug): on the collection `exC1` report 5
returns `["Crime", "Drama", "Drama"]`: the `$group` deduplication happens
on the raw tokens `"Crime"`, `" Drama"`, `"Drama"`, before the Python
`strip()`, so two raw tokens differing only in surrounding whitespace
both survive and trim to the same genre string.  This contradicts the
claimed duplicate-freeness (and the function's own contract of returning
the genres "sans doublons"). -/
theorem distinct_genres_duplicate_on_whitespace_variants :
    distinct_genres exC1 = ["Crime", "Drama", "Drama"] ∧
    ¬ (distinct_genres exC1).Nodup := by
  constructor
  · decide
  · decide

/-! ### Claim C9 — report 5's handling of falsy group keys -/

/-- Claim C9: a string is in report 5's result exactly when some record's
genre splits into a nonempty raw token that trims to it.  Hence a record
lacking `genre` contributes nothing (its `$split` is null and `$unwind`
drops it), a raw token that is the empty string is excluded by the
Python falsy-key test, and a whitespace-only raw token is kept and trims
to the empty string. -/
theorem distinct_genres_mem_iff (films : List Film) (x : String) :
    x ∈ distinct_genres films ↔
      ∃ f ∈ films, ∃ t ∈ genreTokens f, t ≠ [] ∧ (trimChars t).asString = x := by
  simp only [distinct_genres, List.mem_map, List.mem_filter, List.mem_dedup,
    List.mem_flatMap, Bool.not_eq_true', List.isEmpty_eq_false]
  constructor
  · rintro ⟨t, ⟨⟨f, hf, ht⟩, hne⟩, hx⟩
    exact ⟨f, hf, t, ht, hne, hx⟩
  · rintro ⟨f, hf, t, ht, hne, hx⟩
    exact ⟨t, ⟨⟨f, hf, ht⟩, hne⟩, hx⟩

/-! ### Claim C3 — report 12's outcome by case -/

/-- Claim C3 (refuted on the ≥ 2 branch): the collection `exC3` has two
qualifying records, yet report 12 returns the float `nan` — neither the
absent sentinel `None` nor a value in `[-1, 1]` — because the runtime
column is constant and the correlation denominator is zero. -/
theorem runtime_revenue_correlation_nan_despite_two_rows :
    2 ≤ (corrData exC3).length ∧
    runtime_revenue_correlation exC3 = CorrResult.nan ∧
    ∀ x : ℝ, runtime_revenue_correlation exC3 ≠ CorrResult.val x := by
  have hdata : corrData exC3 = [(100, 5), (100, 10)] := by decide
  have hnan : runtime_revenue_correlation exC3 = CorrResult.nan := by
    simp only [runtime_revenue_correlation]
    rw [if_neg (by rw [hdata]; decide), if_pos]
    left
    rw [hdata]
    norm_num [sxx, sumFstSq, sumFst]
  refine ⟨by rw [hdata]; decide, hnan, ?_⟩
  intro x hx
  rw [hnan] at hx
  exact CorrResult.noConfusion hx

/-- Claim C3 (amended): report 12 returns `None` exactly on zero
qualifying records; with at least one qualifying record it returns `nan`
when a column is constant (zero variance, which covers the single-record
case), and otherwise a real value in `[-1, 1]`. -/
theorem runtime_revenue_correlation_cases (films : List Film) :
    (corrData films = [] → runtime_revenue_correlation films = CorrResult.absent) ∧
    (corrData films ≠ [] → (sxx (corrData films) = 0 ∨ syy (corrData films) = 0) →
      runtime_revenue_correlation films = CorrResult.nan) ∧
    (sxx (corrData films) ≠ 0 → syy (corrData films) ≠ 0 →
      ∃ x : ℝ, runtime_revenue_correlation films = CorrResult.val x ∧ -1 ≤ x ∧ x ≤ 1) := by
  refine ⟨?_, ?_, ?_⟩
  · intro h
    simp only [runtime_revenue_correlation]
    rw [if_pos (by rw [h]; rfl)]
  · intro h1 h2
    simp only [runtime_revenue_correlation]
    rw [if_neg (by simpa [List.isEmpty_iff] using h1), if_pos h2]
  · intro hx hy
    have hxxpos : (0 : ℚ) < sxx (corrData films) :=
      lt_of_le_of_ne (sxx_nonneg _) (Ne.symm hx)
    have hyypos : (0 : ℚ) < syy (corrData films) :=
      lt_of_le_of_ne (syy_nonneg _) (Ne.symm hy)
    have hne : corrData films ≠ [] := by
      intro h
      rw [h] at hxxpos
      norm_num [sxx, sumFstSq, sumFst] at hxxpos
    have hxR : (0 : ℝ) < ((sxx (corrData films) : ℚ) : ℝ) := by exact_mod_cast hxxpos
    have hyR : (0 : ℝ) < ((syy (corrData films) : ℚ) : ℝ) := by exact_mod_cast hyypos
    have hcsQ := sxy_sq_le_sxx_mul_syy (corrData films)
    have hcs : ((sxy (corrData films) : ℚ) : ℝ) * ((sxy (corrData films) : ℚ) : ℝ)
        ≤ ((sxx (corrData films) : ℚ) : ℝ) * ((syy (corrData films) : ℚ) : ℝ) := by
      exact_mod_cast hcsQ
    have hDpos : 0 < Real.sqrt (sxx (corrData films)) * Real.sqrt (syy (corrData films)) :=
      mul_pos (Real.sqrt_pos.mpr hxR) (Real.sqrt_pos.mpr hyR)
    have hD2 : (Real.sqrt (sxx (corrData films)) * Real.sqrt (syy (corrData films)))
        * (Real.sqrt (sxx (corrData films)) * Real.sqrt (syy (corrData films)))
        = ((sxx (corrData films) : ℚ) : ℝ) * ((syy (corrData films) : ℚ) : ℝ) := by
      rw [mul_mul_mul_comm, Real.mul_self_sqrt hxR.le, Real.mul_self_sqrt hyR.le]
    refine ⟨(sxy (corrData films) : ℝ)
        / (Real.sqrt (sxx (corrData films)) * Real.sqrt (syy (corrData films))), ?_, ?_, ?_⟩
    · simp only [runtime_revenue_correlation]
      rw [if_neg (by simpa [List.isEmpty_iff] using hne), if_neg (by push_neg; exact ⟨hx, hy⟩)]
    · rw [le_div_iff₀ hDpos]
      nlinarith [hcs, hD2, hDpos, sq_nonneg ((sxy (corrData films) : ℝ)
        + Real.sqrt (sxx (corrData films)) * Real.sqrt (syy (corrData films)))]
    · rw [div_le_one hDpos]
      nlinarith [hcs, hD2, hDpos, sq_nonneg ((sxy (corrData films) : ℝ)
        - Real.sqrt (sxx (corrData films)) * Real.sqrt (syy (corrData films)))]

/-- Witness for C3's amended value branch at a concrete collection with
two qualifying rows and non-constant columns. -/
theorem runtime_revenue_correlation_cases_witness :
    sxx (corrData exC3v) ≠ 0 ∧ syy (corrData exC3v) ≠ 0 ∧
    ∃ x : ℝ, runtime_revenue_correlation exC3v = CorrResult.val x ∧ -1 ≤ x ∧ x ≤ 1 := by
  have hdata : corrData exC3v = [(1, 2), (2, 1)] := by decide
  have hx : sxx (corrData exC3v) ≠ 0 := by
    rw [hdata]
    norm_num [sxx, sumFstSq, sumFst]
  have hy : syy (corrData exC3v) ≠ 0 := by
    rw [hdata]
    norm_num [syy, sumSndSq, sumSnd]
  exact ⟨hx, hy, (runtime_revenue_correlation_cases exC3v).2.2 hx hy⟩

/-! ### Helpers for the sorted-group reports (9 and 10) -/

/-- The head of a list that is `Pairwise R` is related to every other
element of the list. -/
theorem head?_pairwise_rel {α : Type} {R : α → α → Prop} {l : List α} {h : α}
    (hp : l.Pairwise R) (hh : l.head? = some h) :
    ∀ x ∈ l, x = h ∨ R h x := by
  cases l with
  | nil => cases hh
  | cons a t =>
    have ha : a = h := by
      simpa using hh
    subst ha
    intro x hx
    rcases List.mem_cons.mp hx with rfl | hx'
    · exact Or.inl rfl
    · exact Or.inr (List.rel_of_pairwise_cons hp hx')

/-- Unfolding membership in the qualifying rows of report 9. -/
theorem decadeRows_mem {films : List Film} {e : DecadeFilm} (he : e ∈ decadeRows films) :
    ∃ f ∈ films, f.title = e.title ∧ toNum f.metascore = some e.metascore ∧
      f.year = e.year := by
  rcases List.mem_filterMap.mp he with ⟨f, hf, hmatch⟩
  rcases Option.map_eq_some'.mp hmatch with ⟨m, hm, he2⟩
  subst he2
  exact ⟨f, hf, rfl, hm, rfl⟩

/-- Unfolding membership in the unwound rows of report 10. -/
theorem genreRows_mem {films : List Film} {row : List Char × Film}
    (h : row ∈ genreRows films) :
    row.2 ∈ films ∧ row.1 ∈ trimmedTokens row.2 := by
  rcases List.mem_flatMap.mp h with ⟨f, hf, hrow⟩
  rcases List.mem_map.mp hrow with ⟨t, ht, heq⟩
  subst heq
  exact ⟨hf, List.mem_map_of_mem trimChars ht⟩

/-- Every film/trimmed-token pair appears among the unwound rows of
report 10. -/
theorem genreRows_mem_of {films : List Film} {f : Film} {k : List Char}
    (hf : f ∈ films) (hk : k ∈ trimmedTokens f) : (k, f) ∈ genreRows films := by
  rcases List.mem_map.mp hk with ⟨t, ht, rfl⟩
  exact List.mem_flatMap.mpr ⟨f, hf, List.mem_map_of_mem (fun t => (trimChars t, f)) ht⟩

/-! ### Claim C6 — shape of report 9's output -/

/-- Claim C6: for every collection, report 9's
(`top_3_movies_each_decade`) decade entries are strictly ascending in the
BSON key order (the null decade of yearless documents first), every
decade's film list has at most 3 entries sorted descending by metascore,
and every listed film comes from a record of the collection whose
`Metascore` coerces to the listed value. -/
theorem top_3_movies_each_decade_shape (films : List Film) :
    List.Pairwise (fun a b : DecadeGroup => a.decade < b.decade)
      (top_3_movies_each_decade films) ∧
    ∀ g ∈ top_3_movies_each_decade films, g.top3Films.length ≤ 3 ∧
      List.Pairwise (fun a b : DecadeFilm => b.metascore ≤ a.metascore) g.top3Films ∧
      ∀ e ∈ g.top3Films, ∃ f ∈ films,
        f.title = e.title ∧ toNum f.metascore = some e.metascore ∧ f.year = e.year := by
  simp only [top_3_movies_each_decade]
  constructor
  · have hsorted := List.sorted_insertionSort decGroupLe
      ((((List.insertionSort msDesc (decadeRows films)).map
          (fun r => decadeKey r.year)).dedup).map
        (fun d => (⟨d, ((List.insertionSort msDesc (decadeRows films)).filter
            (fun r => decadeKey r.year = d)).take 3⟩ : DecadeGroup)))
    have hperm := List.perm_insertionSort decGroupLe
      ((((List.insertionSort msDesc (decadeRows films)).map
          (fun r => decadeKey r.year)).dedup).map
        (fun d => (⟨d, ((List.insertionSort msDesc (decadeRows films)).filter
            (fun r => decadeKey r.year = d)).take 3⟩ : DecadeGroup)))
    have hkeys : ((((List.insertionSort msDesc (decadeRows films)).map
        (fun r => decadeKey r.year)).dedup).map
          (fun d => (⟨d, ((List.insertionSort msDesc (decadeRows films)).filter
              (fun r => decadeKey r.year = d)).take 3⟩ : DecadeGroup))).map
            (fun g => g.decade)
        = ((List.insertionSort msDesc (decadeRows films)).map
            (fun r => decadeKey r.year)).dedup := by
      rw [List.map_map]
      exact List.map_id _
    have hnd : ((List.insertionSort decGroupLe
        ((((List.insertionSort msDesc (decadeRows films)).map
            (fun r => decadeKey r.year)).dedup).map
          (fun d => (⟨d, ((List.insertionSort msDesc (decadeRows films)).filter
              (fun r => decadeKey r.year = d)).take 3⟩ : DecadeGroup)))).map
                (fun g => g.decade)).Nodup := by
      refine ((hperm.map (fun g => g.decade)).nodup_iff).mpr ?_
      rw [hkeys]
      exact List.nodup_dedup _
    have hdistinct := List.pairwise_map.mp hnd
    exact (hsorted.and hdistinct).imp (fun hab => lt_of_le_of_ne hab.1 hab.2)
  · intro g hg
    have hg2 := (List.mem_insertionSort decGroupLe).mp hg
    rcases List.mem_map.mp hg2 with ⟨d, _, hgd⟩
    subst hgd
    refine ⟨List.length_take_le _ _, ?_, ?_⟩
    · have hms := List.sorted_insertionSort msDesc (decadeRows films)
      have hsub : (((List.insertionSort msDesc (decadeRows films)).filter
          (fun r => decadeKey r.year = d)).take 3).Sublist
            (List.insertionSort msDesc (decadeRows films)) :=
        (List.take_sublist _ _).trans (List.filter_sublist _)
      exact List.Pairwise.sublist hsub hms
    · intro e he
      have hsub : (((List.insertionSort msDesc (decadeRows films)).filter
          (fun r => decadeKey r.year = d)).take 3).Sublist
            (List.insertionSort msDesc (decadeRows films)) :=
        (List.take_sublist _ _).trans (List.filter_sublist _)
      have he2 : e ∈ List.insertionSort msDesc (decadeRows films) := hsub.subset he
      exact decadeRows_mem ((List.mem_insertionSort msDesc).mp he2)

/-- Witness for C6 at a concrete collection spanning two decades with one
unparseable `Metascore` and one coercible but yearless film, which lands
in a null-decade group sorted first. -/
theorem top_3_movies_each_decade_shape_witness :
    top_3_movies_each_decade exC6
      = [⟨⊥, [⟨"mE", 60, none⟩]⟩,
         ⟨(1990 : ℤ), [⟨"mB", 90, some 1991⟩, ⟨"mA", 80, some 1994⟩]⟩,
         ⟨(2000 : ℤ), [⟨"mC", 70, some 2003⟩]⟩] ∧
    (⟨(1990 : ℤ), [⟨"mB", 90, some 1991⟩, ⟨"mA", 80, some 1994⟩]⟩ : DecadeGroup)
      ∈ top_3_movies_each_decade exC6 ∧
    ([(⟨"mB", 90, some 1991⟩ : DecadeFilm), ⟨"mA", 80, some 1994⟩].length ≤ 3 ∧
      List.Pairwise (fun a b : DecadeFilm => b.metascore ≤ a.metascore)
        [⟨"mB", 90, some 1991⟩, ⟨"mA", 80, some 1994⟩] ∧
      ∀ e ∈ [(⟨"mB", 90, some 1991⟩ : DecadeFilm), ⟨"mA", 80, some 1994⟩],
        ∃ f ∈ exC6, f.title = e.title ∧ toNum f.metascore = some e.metascore ∧
          f.year = e.year) := by
  have hmem : (⟨(1990 : ℤ), [⟨"mB", 90, some 1991⟩, ⟨"mA", 80, some 1994⟩]⟩ : DecadeGroup)
      ∈ top_3_movies_each_decade exC6 := by decide
  exact ⟨by decide, hmem, (top_3_movies_each_decade_shape exC6).2 _ hmem⟩

/-! ### Claim C7 — report 10 returns genuine per-genre maxima -/

/-- Claim C7: every entry of report 10 (`longest_film_by_genre`) carries a
film of the collection containing the entry's genre among its trimmed
tokens, reports that film's own `Runtime (Minutes)` as `maxRuntime`, and no
film of the collection containing that genre has a larger runtime in the
BSON order (null/missing below every number). -/
theorem longest_film_by_genre_is_max (films : List Film) (e : GenreMax)
    (he : e ∈ longest_film_by_genre films) :
    e.longestFilm ∈ films ∧
    e.genre ∈ trimmedTokens e.longestFilm ∧
    e.maxRuntime = e.longestFilm.runtime ∧
    ∀ f ∈ films, e.genre ∈ trimmedTokens f → rtKey f.runtime ≤ rtKey e.maxRuntime := by
  simp only [longest_film_by_genre] at he
  have he2 := (List.mem_insertionSort maxRtDesc).mp he
  rcases List.mem_filterMap.mp he2 with ⟨k, _, hek⟩
  rcases Option.map_eq_some'.mp hek with ⟨r, hhead, hre⟩
  subst hre
  have hrmem : r ∈ (List.insertionSort runtimeDesc (genreRows films)).filter
      (fun row => row.1 = k) := List.mem_of_mem_head? (by simp [hhead])
  have hrf := List.mem_filter.mp hrmem
  have hr1 : r.1 = k := of_decide_eq_true hrf.2
  have hrrows : r ∈ genreRows films := (List.mem_insertionSort runtimeDesc).mp hrf.1
  have hbase := genreRows_mem hrrows
  refine ⟨hbase.1, ?_, rfl, ?_⟩
  · rw [show (⟨k, r.2.runtime, r.2⟩ : GenreMax).genre = k from rfl, ← hr1]
    exact hbase.2
  · intro f hf hkf
    have hrow : (k, f) ∈ genreRows films := genreRows_mem_of hf hkf
    have hrow2 : (k, f) ∈ (List.insertionSort runtimeDesc (genreRows films)).filter
        (fun row => row.1 = k) :=
      List.mem_filter.mpr ⟨(List.mem_insertionSort runtimeDesc).mpr hrow, decide_eq_true rfl⟩
    have hpair : ((List.insertionSort runtimeDesc (genreRows films)).filter
        (fun row => row.1 = k)).Pairwise runtimeDesc :=
      List.Pairwise.sublist (List.filter_sublist _)
        (List.sorted_insertionSort runtimeDesc (genreRows films))
    rcases head?_pairwise_rel hpair hhead (k, f) hrow2 with heq | hrel
    · rw [show f = r.2 from congrArg Prod.snd heq]
    · exact hrel

/-- Witness for C7 at a concrete collection: the `Action` entry names the
120-minute film and dominates the 90-minute and runtime-less films. -/
theorem longest_film_by_genre_is_max_witness :
    (⟨"Action".data, some 120, exC7long⟩ : GenreMax) ∈ longest_film_by_genre exC7 ∧
    (exC7long ∈ exC7 ∧
      "Action".data ∈ trimmedTokens exC7long ∧
      (some 120 : Option ℚ) = exC7long.runtime ∧
      ∀ f ∈ exC7, "Action".data ∈ trimmedTokens f →
        rtKey f.runtime ≤ rtKey (some 120)) := by
  have hmem : (⟨"Action".data, some 120, exC7long⟩ : GenreMax)
      ∈ longest_film_by_genre exC7 := by decide
  exact ⟨hmem, longest_film_by_genre_is_max exC7 _ hmem⟩

end MongoFilms
